import Mathlib

/-!
Verification of the formica-ci core against its natural-language specification.

The Rust sources embedded here are:
  * `src/job_runner/script.rs` — script resolution and process preparation;
  * `src/job_runner.rs`       — initialization, job discovery, dispatch,
                                background updater, queue channel;
  * `src/main.rs`             — the interrupt-driven shutdown escalation loop.

Filesystem and process effects are modelled explicitly: a directory listing is
a `List Entry` (or `Option (List Entry)` where the code can fail to list it),
a recursive walk is a `List WalkEntry`, process execution is an oracle
function, and Rust panics (`unwrap` / `expect`) are the `Outcome.panicked`
constructor.  Machine-level details (byte buffers, OS handles) are out of the
model's granularity.
-/

namespace Formica

/-- Constants from `job_runner.rs`.  `CONFIG_INIT` is the constant named
`CONFIG_INIT_PREFIX` in the source. -/
def CONFIG : String := "formica_conf"

def CONFIG_INIT : String := "config_init"

def QUEUE_DIR : String := "queue"

def UPDATE : String := "update"

def AGENT_INIT : String := "agent_init"

/-- Rust's `str::starts_with`, modelled over the character list. -/
def strStarts (s pat : String) : Bool := pat.toList.isPrefixOf s.toList

/-- Helper for `strContains`: is `pat` a contiguous sublist of the haystack? -/
def containsSub (pat : List Char) : List Char → Bool
  | [] => pat.isEmpty
  | c :: t => pat.isPrefixOf (c :: t) || containsSub pat t

/-- Rust's `str::contains` (substring containment), modelled over character
lists. -/
def strContains (hay pat : String) : Bool := containsSub pat.toList hay.toList

/-- One immediate entry of a directory listing, as observed through
`fs::read_dir`: its file name and whether it is a regular file. -/
structure Entry where
  name : String
  isFile : Bool
deriving DecidableEq

/-- Type `ScriptErrorKind` from `script.rs`. -/
inductive ScriptErrorKind where
  | noScriptFound : ScriptErrorKind
  | tooManyScriptsFound : List String → ScriptErrorKind
deriving DecidableEq

/-- The candidate scripts of `find_script`: regular files whose name starts
with the requested name (the `filter` over `read_dir` in `script.rs`). -/
def scriptCandidates (entries : List Entry) (pat : String) : List Entry :=
  entries.filter (fun e => e.isFile && strStarts e.name pat)

/-- Function `find_script` from `script.rs`, once the directory listing succeeded:
zero candidates error out with `NoScriptFound`, more than one with
`TooManyScriptsFound` carrying every candidate's file name, and exactly one
returns that candidate's file name. -/
def find_script (entries : List Entry) (pat : String) :
    Except ScriptErrorKind String :=
  let scripts := scriptCandidates entries pat
  if scripts.length = 0 then .error .noScriptFound
  else if 1 < scripts.length then
    .error (.tooManyScriptsFound (scripts.map Entry.name))
  else
    match scripts.head? with
    | some s => .ok s.name
    | none => .error .noScriptFound

/-- Claim C3: for every directory listing and name P, `find_script` returns
the unique candidate's name when there is exactly one regular file starting
with P, `NoScriptFound` when there is none, and `TooManyScriptsFound` carrying
exactly the names of all candidates (as a set) when there are two or more. -/
theorem resolve_uniqueness (entries : List Entry) (pat : String) :
    (∀ e, scriptCandidates entries pat = [e] →
      find_script entries pat = .ok e.name) ∧
    (scriptCandidates entries pat = [] →
      find_script entries pat = .error .noScriptFound) ∧
    (2 ≤ (scriptCandidates entries pat).length →
      ∃ ns, find_script entries pat = .error (.tooManyScriptsFound ns) ∧
        ∀ n, n ∈ ns ↔ ∃ e, e ∈ entries ∧ e.isFile = true ∧
          strStarts e.name pat = true ∧ e.name = n) := by
  refine ⟨?_, ?_, ?_⟩
  · intro e he
    unfold find_script
    rw [he]
    rfl
  · intro he
    unfold find_script
    rw [he]
    rfl
  · intro hlen
    refine ⟨(scriptCandidates entries pat).map Entry.name, ?_, ?_⟩
    · unfold find_script
      rcases h : scriptCandidates entries pat with _ | ⟨a, _ | ⟨b, l⟩⟩
      · rw [h] at hlen; simp at hlen
      · rw [h] at hlen; simp at hlen
      · simp [h]
    · intro n
      simp only [List.mem_map, scriptCandidates, List.mem_filter,
        Bool.and_eq_true]
      constructor
      · rintro ⟨e, ⟨he, hf, hs⟩, hn⟩
        exact ⟨e, he, hf, hs, hn⟩
      · rintro ⟨e, he, hf, hs, hn⟩
        exact ⟨e, ⟨he, hf, hs⟩, hn⟩

/-- Concrete instantiation of `resolve_uniqueness`: a directory holding
exactly one regular file named `update.sh` resolves the `update` script to
that file. -/
theorem resolve_uniqueness_witness :
    scriptCandidates [⟨"update.sh", true⟩, ⟨"readme", false⟩] UPDATE =
      [⟨"update.sh", true⟩] ∧
    find_script [⟨"update.sh", true⟩, ⟨"readme", false⟩] UPDATE =
      .ok "update.sh" :=
  ⟨by decide,
   (resolve_uniqueness [⟨"update.sh", true⟩, ⟨"readme", false⟩] UPDATE).1
     ⟨"update.sh", true⟩ (by decide)⟩

/-- The captured output of a finished process (`std::process::Output`):
`statusCode` is `none` when the process died without an exit code. -/
structure ExecOutput where
  statusCode : Option Int
  stdout : String
  stderr : String
deriving DecidableEq

/-- Predicate `status.success()` of an `ExecOutput`. -/
def ExecOutput.success (o : ExecOutput) : Bool := o.statusCode == some 0

/-- Exit code `exitcode::DATAERR`, used by `main.rs` for missing/ambiguous
scripts. -/
def DATAERR : Int := 65

/-- Exit code `exitcode::SOFTWARE`, the fallback when a failed script has no
exit code of its own. -/
def SOFTWARE : Int := 70

/-- Exit code `exitcode::TEMPFAIL`, used by the 4th interrupt in `main.rs`. -/
def TEMPFAIL : Int := 75

/-- The `ShutdownState` levels of the specification's Shutdown Coordinator. -/
inductive ShutdownState where
  | running : ShutdownState
  | cooldownRequested : ShutdownState
  | immediateShutdownRequested : ShutdownState
  | forceTerminationRequested : ShutdownState
  | terminated : ShutdownState
deriving DecidableEq

/-- The shutdown level reached after a given number of observed interrupts
(capped at `terminated`). -/
def levelState : Nat → ShutdownState
  | 0 => .running
  | 1 => .cooldownRequested
  | 2 => .immediateShutdownRequested
  | 3 => .forceTerminationRequested
  | _ + 4 => .terminated

/-- An observable action of the interrupt loop in `main`: one of the three
shutdown broadcasts, or the immediate process exit. -/
inductive MainEvent where
  | broadcastSlow : MainEvent
  | broadcastImmediate : MainEvent
  | broadcastForce : MainEvent
  | exitNow : Int → MainEvent
deriving DecidableEq

/-- State of the interrupt loop in `main`: the press counter
(`number_of_control_c_presses`) and whether (and with which code) the process
has exited. -/
structure MainState where
  presses : Nat
  exited : Option Int
deriving DecidableEq

/-- One iteration of the `select!` loop in `main` on receipt of a Ctrl-C:
once the process has exited nothing further happens; otherwise the counter is
incremented and the branch for its value runs (1 → slow-shutdown broadcast,
2 → immediate-shutdown broadcast, 3 → force-termination broadcast,
otherwise → `exit(exitcode::TEMPFAIL)`). -/
def mainStep (s : MainState) : MainState × List MainEvent :=
  match s.exited with
  | some _ => (s, [])
  | none =>
    let p := s.presses + 1
    if p = 1 then (⟨p, none⟩, [.broadcastSlow])
    else if p = 2 then (⟨p, none⟩, [.broadcastImmediate])
    else if p = 3 then (⟨p, none⟩, [.broadcastForce])
    else (⟨p, some TEMPFAIL⟩, [.exitNow TEMPFAIL])

/-- The interrupt loop after `n` operator interrupts: final state and the
concatenated list of events emitted, starting from zero presses. -/
def mainRun : Nat → MainState × List MainEvent
  | 0 => (⟨0, none⟩, [])
  | n + 1 =>
    let r := mainRun n
    let s := mainStep r.1
    (s.1, r.2 ++ s.2)

/-- The coordinator state observed after `n` interrupts. -/
def shutdownStateAfter (n : Nat) : ShutdownState :=
  levelState (mainRun n).1.presses

lemma mainRun_zero : mainRun 0 = (⟨0, none⟩, []) := rfl

lemma mainRun_succ (n : Nat) :
    mainRun (n + 1) =
      ((mainStep (mainRun n).1).1,
       (mainRun n).2 ++ (mainStep (mainRun n).1).2) := rfl

lemma mainRun_four :
    mainRun 4 = (⟨4, some TEMPFAIL⟩,
      [.broadcastSlow, .broadcastImmediate, .broadcastForce,
       .exitNow TEMPFAIL]) := by
  decide

lemma mainRun_ge_four (n : Nat) (h : 4 ≤ n) : mainRun n = mainRun 4 := by
  induction n with
  | zero => omega
  | succ k ih =>
    rcases Nat.lt_or_ge k 4 with hk | hk
    · have hk3 : k = 3 := by omega
      subst hk3
      rfl
    · rw [mainRun_succ, ih hk, mainRun_four]
      rfl

lemma shutdownStateAfter_eq (k : Nat) :
    shutdownStateAfter k = levelState (min k 4) := by
  rcases Nat.lt_or_ge k 4 with hk | hk
  · interval_cases k <;> decide
  · rw [shutdownStateAfter, mainRun_ge_four k hk, mainRun_four]
    have hmin : min k 4 = 4 := by omega
    rw [hmin]

/-- Claim C1: for every N ≥ 1, after each of the first N interrupts the
coordinator's state has advanced exactly one level along
Running → CooldownRequested → ImmediateShutdownRequested →
ForceTerminationRequested → Terminated (never skipping or regressing); each
level's broadcast is emitted exactly once (and only after its interrupt);
and the 4th interrupt exits the process immediately with the distinguished
failure code `TEMPFAIL`. -/
theorem shutdown_escalation (n : Nat) (h : 1 ≤ n) :
    (∀ k, k ≤ n → shutdownStateAfter k = levelState (min k 4)) ∧
    ((mainRun n).2.count .broadcastSlow = 1) ∧
    ((mainRun n).2.count .broadcastImmediate = if 2 ≤ n then 1 else 0) ∧
    ((mainRun n).2.count .broadcastForce = if 3 ≤ n then 1 else 0) ∧
    ((mainRun n).2.count (.exitNow TEMPFAIL) = if 4 ≤ n then 1 else 0) ∧
    ((mainRun n).1.exited = if 4 ≤ n then some TEMPFAIL else none) ∧
    TEMPFAIL ≠ 0 := by
  refine ⟨fun k _ => shutdownStateAfter_eq k, ?_, ?_, ?_, ?_, ?_, by decide⟩ <;>
    rcases Nat.lt_or_ge n 4 with hn | hn
  · interval_cases n <;> decide
  · rw [mainRun_ge_four n hn, mainRun_four]
    decide
  · interval_cases n <;> decide
  · rw [mainRun_ge_four n hn, mainRun_four, if_pos (by omega : 2 ≤ n)]
    decide
  · interval_cases n <;> decide
  · rw [mainRun_ge_four n hn, mainRun_four, if_pos (by omega : 3 ≤ n)]
    decide
  · interval_cases n <;> decide
  · rw [mainRun_ge_four n hn, mainRun_four, if_pos hn]
    decide
  · interval_cases n <;> decide
  · rw [mainRun_ge_four n hn, mainRun_four, if_pos hn]

/-- Concrete instantiation of `shutdown_escalation` at five interrupts: the
process has exited with `TEMPFAIL` and each broadcast was emitted exactly
once. -/
theorem shutdown_escalation_witness :
    (1 ≤ 5) ∧
    ((mainRun 5).1.exited = if 4 ≤ 5 then some TEMPFAIL else none) ∧
    ((mainRun 5).2.count .broadcastSlow = 1) ∧
    (shutdownStateAfter 2 = levelState (min 2 4)) :=
  ⟨by decide,
   (shutdown_escalation 5 (by decide)).2.2.2.2.2.1,
   (shutdown_escalation 5 (by decide)).2.1,
   (shutdown_escalation 5 (by decide)).1 2 (by decide)⟩

/-- A `Job` from `job_runner.rs`: its name and root folder.  Paths are
modelled as lists of components, so `file_name()` is the last component and
`parent()` drops it. -/
structure Job where
  name : String
  root_folder : List String
deriving DecidableEq

/-- Type `JobRunnerErrorKind` from `job_runner.rs`. -/
inductive JobRunnerErrorKind where
  | noJobsFound : JobRunnerErrorKind
deriving DecidableEq

/-- One entry of the recursive `WalkDir` traversal of the configuration
root: the entry's path (as components, starting with `formica_conf`) and
whether it is a regular file. -/
structure WalkEntry where
  path : List String
  isFile : Bool
deriving DecidableEq

/-- Predicate `is_agent_init_script` from `job_runner.rs`: a regular file whose file
name starts with the agent-init name (`agent_init`). -/
def is_agent_init_script (e : WalkEntry) : Bool :=
  e.isFile && strStarts (e.path.getLast?.getD "") AGENT_INIT

/-- Function `find_jobs` from `job_runner.rs`, over the walk of the configuration
tree: each agent-init script's parent directory becomes a `Job` whose `name`
is the literal `String::from("a job")`; an empty result is the
`NoJobsFound` error. -/
def find_jobs (walk : List WalkEntry) :
    Except JobRunnerErrorKind (List Job) :=
  let jobs := (walk.filter is_agent_init_script).map
    (fun e => { name := "a job", root_folder := e.path.dropLast })
  if jobs.isEmpty then .error .noJobsFound else .ok jobs

/-- Walk used to refute claim C9: two job directories, `alpha` and `beta`,
each holding one agent-init script. -/
def walkAlphaBeta : List WalkEntry :=
  [⟨[CONFIG], false⟩,
   ⟨[CONFIG, "alpha"], false⟩,
   ⟨[CONFIG, "alpha", "agent_init.sh"], true⟩,
   ⟨[CONFIG, "beta"], false⟩,
   ⟨[CONFIG, "beta", "agent_init.sh"], true⟩]

/-- Counterexample to claim C9 as stated: scanning two job directories named
`alpha` and `beta` produces two jobs that both carry the constant name
`"a job"` — the same name for distinct root folders, equal to neither folder
name — so `name` is not an identifier derived from the job's root folder
name. -/
theorem job_name_counterexample :
    find_jobs walkAlphaBeta =
      .ok [{ name := "a job", root_folder := [CONFIG, "alpha"] },
           { name := "a job", root_folder := [CONFIG, "beta"] }] ∧
    ("a job" ≠ "alpha") ∧ ("a job" ≠ "beta") ∧
    strContains "a job" "alpha" = false ∧
    strContains "a job" "beta" = false := by
  refine ⟨?_, by decide, by decide, by decide, by decide⟩
  rfl

/-- Claim C9 as amended: every job produced by the scan carries the constant
placeholder name `"a job"` regardless of its root folder, and its root
folder is the parent directory of the agent-init script that produced it. -/
theorem job_name_placeholder (walk : List WalkEntry) (jobs : List Job)
    (h : find_jobs walk = .ok jobs) :
    ∀ j, j ∈ jobs → j.name = "a job" ∧
      ∃ e, e ∈ walk ∧ is_agent_init_script e = true ∧
        j.root_folder = e.path.dropLast := by
  intro j hj
  unfold find_jobs at h
  by_cases hempty :
      ((walk.filter is_agent_init_script).map
        (fun e => ({ name := "a job", root_folder := e.path.dropLast } :
          Job))).isEmpty
  · rw [if_pos hempty] at h
    exact absurd h (by simp)
  · rw [if_neg hempty] at h
    have hjobs : _ = jobs := Except.ok.inj h
    rw [← hjobs] at hj
    rcases List.mem_map.mp hj with ⟨e, he, hje⟩
    rcases List.mem_filter.mp he with ⟨hew, hescript⟩
    refine ⟨?_, e, hew, hescript, ?_⟩
    · rw [← hje]
    · rw [← hje]

/-- Concrete instantiation of `job_name_placeholder` on the `alpha`/`beta`
walk: the first produced job has the placeholder name. -/
theorem job_name_placeholder_witness :
    ({ name := "a job", root_folder := [CONFIG, "alpha"] } : Job).name =
        "a job" ∧
    ∃ e, e ∈ walkAlphaBeta ∧ is_agent_init_script e = true ∧
      ({ name := "a job", root_folder := [CONFIG, "alpha"] } :
        Job).root_folder = e.path.dropLast :=
  job_name_placeholder walkAlphaBeta
    [{ name := "a job", root_folder := [CONFIG, "alpha"] },
     { name := "a job", root_folder := [CONFIG, "beta"] }]
    (by rfl)
    { name := "a job", root_folder := [CONFIG, "alpha"] }
    (by decide)

/-- The match predicate of the consuming loop in `start_orchestrator`: the
job's root-folder file name (its last path component) contains the dispatch
signal as a substring.  (`file_name()` of a folder produced by `find_jobs`
always exists; an absent component is treated as no match.) -/
def jobMatches (sig : String) (j : Job) : Bool :=
  match j.root_folder.getLast? with
  | some leaf => strContains leaf sig
  | none => false

/-- The job lookup of the consuming loop:
`jobs.iter().filter(...).next()`, i.e. the head of the filtered catalog. -/
def matchJob (jobs : List Job) (sig : String) : Option Job :=
  (jobs.filter (jobMatches sig)).head?

/-- Observable actions of the consuming loop for one received signal. -/
inductive DispatchEvent where
  | workerSpawned : Option Job → DispatchEvent
  | droppedWithDiagnostic : String → DispatchEvent
deriving DecidableEq

/-- One iteration of the consuming loop in `start_orchestrator` for one
received signal: look up the first matching job and unconditionally spawn a
worker task for the lookup result.  No diagnostic event exists in the
source; the `droppedWithDiagnostic` constructor is never emitted. -/
def dispatchStep (jobs : List Job) (sig : String) : List DispatchEvent :=
  [.workerSpawned (matchJob jobs sig)]

/-- The consumer thread state as the dispatch loop sees it: the queued
signals and whether the slow-shutdown (cooldown) broadcast has been sent.
The source's loop `select!`s only on the job channel; the shutdown listener
channels created in `initialize` are dropped there and never reach the
orchestrator. -/
structure ConsumerInput where
  jobSignals : List String
  slowShutdownSignaled : Bool
deriving DecidableEq

/-- What the consuming loop does with its queued signals: one
`dispatchStep` per signal, in order.  `slowShutdownSignaled` is never read,
mirroring that the loop has no shutdown arm. -/
def consumeAll (jobs : List Job) (input : ConsumerInput) :
    List DispatchEvent :=
  input.jobSignals.flatMap (fun sig => dispatchStep jobs sig)

/-- Job catalog used for the dispatch counterexamples: a single job rooted
at `formica_conf/build`. -/
def buildJob : Job := { name := "a job", root_folder := [CONFIG, "build"] }

/-- Claim C2 is violated by the code: the consuming loop's behaviour is
identical whether or not the cooldown (slow-shutdown) broadcast has been
sent — the loop listens only on the job channel — and concretely, after the
first interrupt a signal naming the `build` job still spawns a worker task
for it. -/
theorem dispatch_ignores_cooldown :
    (∀ jobs sigs b,
      consumeAll jobs { jobSignals := sigs, slowShutdownSignaled := b } =
      consumeAll jobs
        { jobSignals := sigs, slowShutdownSignaled := true }) ∧
    consumeAll [buildJob]
        { jobSignals := ["build"], slowShutdownSignaled := true } =
      [.workerSpawned (some buildJob)] :=
  ⟨fun _ _ _ => rfl, by rfl⟩

/-- Counterexample to claim C5 as stated: on a signal matching no job, the
consuming loop does not drop the signal with a diagnostic — it spawns a
worker task carrying no job, and emits no diagnostic at all. -/
theorem dispatch_no_match_counterexample :
    matchJob [buildJob] "zzz" = none ∧
    dispatchStep [buildJob] "zzz" = [.workerSpawned none] ∧
    (DispatchEvent.droppedWithDiagnostic "zzz") ∉
      dispatchStep [buildJob] "zzz" := by
  refine ⟨by rfl, by rfl, by decide⟩

/-- Claim C5 as amended: the matched job is the first job in catalog order
whose root-folder name contains the signal as a substring (`find?` over the
catalog); for every received signal the loop spawns exactly one worker task
on its own concurrent thread, carrying the lookup result — also when the
lookup found nothing, in which case no diagnostic is emitted. -/
theorem dispatch_matching (jobs : List Job) (sig : String) :
    matchJob jobs sig = jobs.find? (jobMatches sig) ∧
    dispatchStep jobs sig = [.workerSpawned (matchJob jobs sig)] ∧
    (∀ j, matchJob jobs sig = some j →
      j ∈ jobs ∧ jobMatches sig j = true) := by
  refine ⟨?_, rfl, ?_⟩
  · induction jobs with
    | nil => rfl
    | cons a t ih =>
      by_cases ha : jobMatches sig a
      · simp [matchJob, List.filter, List.find?, ha]
      · simp only [matchJob, List.filter, List.find?] at ih ⊢
        rw [Bool.not_eq_true] at ha
        rw [ha]
        exact ih
  · intro j hj
    unfold matchJob at hj
    have hmem := List.mem_of_mem_head? (by rw [hj]; rfl)
    rcases List.mem_filter.mp hmem with ⟨hin, hmatch⟩
    exact ⟨hin, hmatch⟩

/-- Concrete instantiation of `dispatch_matching`: the signal `build`
matches the `build` job, the match is first-in-catalog-order, and exactly
one worker task is spawned for it. -/
theorem dispatch_matching_witness :
    matchJob [buildJob] "build" =
      ([buildJob].find? (jobMatches "build")) ∧
    (buildJob ∈ [buildJob] ∧ jobMatches "build" buildJob = true) :=
  ⟨(dispatch_matching [buildJob] "build").1,
   (dispatch_matching [buildJob] "build").2.2 buildJob (by rfl)⟩

/-- Type `InitErrorKind` from `job_runner.rs`. -/
inductive InitErrorKind where
  | noInitScriptFound : InitErrorKind
  | tooManyInitScriptsFound : List String → InitErrorKind
  | initScriptExecutionError : ExecOutput → InitErrorKind
  | noUpdateScriptInsideConfig : InitErrorKind
  | tooManyUpdateScriptsFound : List String → InitErrorKind
  | updateScriptExecutionError : ExecOutput → InitErrorKind
deriving DecidableEq

/-- How `initialize_jobrunner` in `main.rs` maps an `InitError` to the
process exit code: missing/ambiguous scripts exit with `DATAERR`; a failed
script execution propagates the script's own exit code, falling back to
`SOFTWARE`. -/
def exitFor : InitErrorKind → Int
  | .noInitScriptFound => DATAERR
  | .tooManyInitScriptsFound _ => DATAERR
  | .initScriptExecutionError o => o.statusCode.getD SOFTWARE
  | .noUpdateScriptInsideConfig => DATAERR
  | .tooManyUpdateScriptsFound _ => DATAERR
  | .updateScriptExecutionError o => o.statusCode.getD SOFTWARE

/-- How `initialize` ends: normally, with an `InitError` (handled by
`main.rs` with a diagnostic and `exitFor`'s exit code), or aborted by an
unhandled panic (an `unwrap` on an `Err`). -/
inductive InitOutcome where
  | ok : InitOutcome
  | failed : InitErrorKind → InitOutcome
  | aborted : InitOutcome
deriving DecidableEq

/-- Does the outcome take the structured diagnostic-plus-exit-code path of
`main.rs` (the `InitError` match arms)? -/
def InitOutcome.isStructuredExit : InitOutcome → Bool
  | .failed _ => true
  | _ => false

/-- The startup stages of `initialize`/`start_orchestrator`, in the order
the source runs them. -/
inductive StartEvent where
  | bootstrapRun : StartEvent
  | initialRefresh : StartEvent
  | updaterStart : StartEvent
  | firstScan : StartEvent
  | pollerStart : StartEvent
  | consumerStart : StartEvent
deriving DecidableEq

/-- Function `start_orchestrator` from `job_runner.rs`: `find_jobs().unwrap()` —
which aborts the process on `Err` — then the queue channel's polling thread
is started and the consuming loop's thread is spawned. -/
def orchestratorRun (scanResult : Except JobRunnerErrorKind (List Job)) :
    List StartEvent × InitOutcome :=
  match scanResult with
  | .error _ => ([.firstScan], .aborted)
  | .ok _ => ([.firstScan, .pollerStart, .consumerStart], .ok)

/-- The tail of `initialize` after the bootstrap decision: the initial
config update (fatal on error), then `launch_background_updater`, then
`start_orchestrator`. -/
def postFetch (refreshResult : Except InitErrorKind Unit)
    (scanResult : Except JobRunnerErrorKind (List Job)) :
    List StartEvent × InitOutcome :=
  match refreshResult with
  | .error e => ([.initialRefresh], .failed e)
  | .ok _ =>
    let orc := orchestratorRun scanResult
    (.initialRefresh :: .updaterStart :: orc.1, orc.2)

/-- Function `initialize` from `job_runner.rs`: when the configuration directory is
absent, `config_fetch` runs first (fatal on error); then the initial config
update, the background updater and the orchestrator.  The outcomes of the
two filesystem-touching calls (`config_fetch`, the initial `update_config`)
and of `find_jobs` are oracle inputs; the trace records which stages ran,
in order. -/
def initializeRun (configDirPresent : Bool)
    (fetchResult : Except InitErrorKind Unit)
    (refreshResult : Except InitErrorKind Unit)
    (scanResult : Except JobRunnerErrorKind (List Job)) :
    List StartEvent × InitOutcome :=
  if configDirPresent then postFetch refreshResult scanResult
  else
    match fetchResult with
    | .error e => ([.bootstrapRun], .failed e)
    | .ok _ =>
      let rest := postFetch refreshResult scanResult
      (.bootstrapRun :: rest.1, rest.2)

/-- Claim C4: startup is strictly ordered — bootstrap (when it runs)
precedes the initial config refresh, the initial refresh precedes the first
job scan, and the first scan precedes the start of the dispatch consumer;
moreover a later stage only runs once every earlier stage completed, and a
fatal earlier stage prevents all later stages. -/
theorem startup_ordering (configDirPresent : Bool)
    (fetchResult refreshResult : Except InitErrorKind Unit)
    (scanResult : Except JobRunnerErrorKind (List Job)) :
    (StartEvent.bootstrapRun ∈ (initializeRun configDirPresent fetchResult
        refreshResult scanResult).1 →
      StartEvent.initialRefresh ∈ (initializeRun configDirPresent
        fetchResult refreshResult scanResult).1 →
      (initializeRun configDirPresent fetchResult refreshResult
        scanResult).1.indexOf .bootstrapRun <
      (initializeRun configDirPresent fetchResult refreshResult
        scanResult).1.indexOf .initialRefresh) ∧
    (StartEvent.initialRefresh ∈ (initializeRun configDirPresent
        fetchResult refreshResult scanResult).1 →
      StartEvent.firstScan ∈ (initializeRun configDirPresent fetchResult
        refreshResult scanResult).1 →
      (initializeRun configDirPresent fetchResult refreshResult
        scanResult).1.indexOf .initialRefresh <
      (initializeRun configDirPresent fetchResult refreshResult
        scanResult).1.indexOf .firstScan) ∧
    (StartEvent.firstScan ∈ (initializeRun configDirPresent fetchResult
        refreshResult scanResult).1 →
      StartEvent.consumerStart ∈ (initializeRun configDirPresent
        fetchResult refreshResult scanResult).1 →
      (initializeRun configDirPresent fetchResult refreshResult
        scanResult).1.indexOf .firstScan <
      (initializeRun configDirPresent fetchResult refreshResult
        scanResult).1.indexOf .consumerStart) ∧
    (StartEvent.consumerStart ∈ (initializeRun configDirPresent fetchResult
        refreshResult scanResult).1 →
      StartEvent.firstScan ∈ (initializeRun configDirPresent fetchResult
        refreshResult scanResult).1) ∧
    (StartEvent.firstScan ∈ (initializeRun configDirPresent fetchResult
        refreshResult scanResult).1 →
      StartEvent.initialRefresh ∈ (initializeRun configDirPresent
        fetchResult refreshResult scanResult).1) ∧
    (configDirPresent = false →
      StartEvent.initialRefresh ∈ (initializeRun configDirPresent
        fetchResult refreshResult scanResult).1 →
      StartEvent.bootstrapRun ∈ (initializeRun configDirPresent fetchResult
        refreshResult scanResult).1) ∧
    (configDirPresent = false → (∀ u, fetchResult ≠ .ok u) →
      StartEvent.initialRefresh ∉ (initializeRun configDirPresent
        fetchResult refreshResult scanResult).1) ∧
    ((∀ u, refreshResult ≠ .ok u) →
      StartEvent.firstScan ∉ (initializeRun configDirPresent fetchResult
        refreshResult scanResult).1) ∧
    ((∀ js, scanResult ≠ .ok js) →
      StartEvent.consumerStart ∉ (initializeRun configDirPresent
        fetchResult refreshResult scanResult).1) := by
  cases configDirPresent <;>
    rcases fetchResult with fe | fu <;>
    rcases refreshResult with re | ru <;>
    rcases scanResult with se | sj <;>
    simp [initializeRun, postFetch, orchestratorRun]

/-- Concrete instantiation of `startup_ordering` on a fully successful
startup with an absent configuration directory: the first scan happens
strictly before the consumer starts. -/
theorem startup_ordering_witness :
    StartEvent.firstScan ∈
      (initializeRun false (.ok ()) (.ok ()) (.ok [buildJob])).1 ∧
    (initializeRun false (.ok ()) (.ok ())
        (.ok [buildJob])).1.indexOf .firstScan <
      (initializeRun false (.ok ()) (.ok ())
        (.ok [buildJob])).1.indexOf .consumerStart :=
  ⟨by decide,
   (startup_ordering false (.ok ()) (.ok ()) (.ok [buildJob])).2.2.1
     (by decide) (by decide)⟩

/-- Walk used to refute claim C8's second half: a configuration tree whose
only file is the update script — no agent-init script anywhere. -/
def walkNoJobs : List WalkEntry :=
  [⟨[CONFIG], false⟩, ⟨[CONFIG, "update.sh"], true⟩]

/-- Counterexample to claim C8 as stated: on a configuration tree with no
agent-init scripts the scan does return `NoJobsFound`, but startup then
aborts through the `unwrap` in `start_orchestrator` — the outcome is
`aborted`, not the structured diagnostic-plus-distinct-exit-code path that
`main.rs` reserves for `InitError` values. -/
theorem no_jobs_abort_counterexample :
    find_jobs walkNoJobs = .error .noJobsFound ∧
    (initializeRun true (.ok ()) (.ok ()) (find_jobs walkNoJobs)).2 =
      .aborted ∧
    (initializeRun true (.ok ()) (.ok ())
      (find_jobs walkNoJobs)).2.isStructuredExit = false := by
  refine ⟨by rfl, by rfl, by rfl⟩

/-- Claim C8 as amended: if the recursive scan of the configuration root
finds zero agent-init files, `find_jobs` returns `NoJobsFound`; at startup
this error is `unwrap`ped in `start_orchestrator`, so the process aborts
via a panic rather than taking the distinct-exit-code-and-diagnostic path
used for the init/update script errors. -/
theorem no_jobs_scan_behavior (walk : List WalkEntry)
    (h : ∀ e, e ∈ walk → is_agent_init_script e = false) :
    find_jobs walk = .error .noJobsFound ∧
    (initializeRun true (.ok ()) (.ok ()) (find_jobs walk)).2 = .aborted ∧
    (initializeRun true (.ok ()) (.ok ())
      (find_jobs walk)).2.isStructuredExit = false := by
  have hfilter : walk.filter is_agent_init_script = [] := by
    rw [List.filter_eq_nil_iff]
    intro e he
    rw [h e he]
    exact Bool.false_ne_true
  have hjobs : find_jobs walk = .error .noJobsFound := by
    unfold find_jobs
    rw [hfilter]
    rfl
  refine ⟨hjobs, ?_, ?_⟩ <;> rw [hjobs] <;> rfl

/-- Concrete instantiation of `no_jobs_scan_behavior` on the job-free
walk. -/
theorem no_jobs_scan_behavior_witness :
    find_jobs walkNoJobs = .error .noJobsFound ∧
    (initializeRun true (.ok ()) (.ok ()) (find_jobs walkNoJobs)).2 =
      .aborted ∧
    (initializeRun true (.ok ()) (.ok ())
      (find_jobs walkNoJobs)).2.isStructuredExit = false :=
  no_jobs_scan_behavior walkNoJobs (by decide)

/-- The configured refresh interval of `launch_background_updater`
(`job_update_delay`, five minutes), in seconds. -/
def jobUpdateDelay : Nat := 5 * 60

/-- Does the background updater run `update_config` on the tick `t` seconds
after the updater thread started?  The thread binds `last_execution_time`
once, before its loop, and never reassigns it, so the comparison is always
against the thread's start instant: a tick refreshes iff more than the
configured delay has passed since start — not since the last refresh. -/
def updaterRefreshesAtTick (t : Nat) : Bool := decide (t > jobUpdateDelay)

/-- The tick times (1, 2, ... seconds after start; the loop sleeps one
second per iteration) at which the updater refreshes, among the first
`ticks` ticks. -/
def updaterRefreshTimes (ticks : Nat) : List Nat :=
  (List.range ticks).filterMap
    (fun i => if updaterRefreshesAtTick (i + 1) then some (i + 1) else none)

/-- Claim C6 is violated by the code: the updater does wake on a one-second
tick, but because `last_execution_time` is never updated, the ticks at
301 s and 302 s after start both perform a refresh — two consecutive
refresh executions one second apart, far less than the configured
five-minute interval. -/
theorem updater_interval_violation :
    updaterRefreshesAtTick 301 = true ∧
    updaterRefreshesAtTick 302 = true ∧
    updaterRefreshTimes 302 = [301, 302] ∧
    302 - 301 < jobUpdateDelay := by
  refine ⟨by decide, by decide, ?_, by decide⟩
  set_option maxRecDepth 4000 in decide

/-- The queue polling cadence of `build_job_queue_channel`
(`job_queue_poll_freq`), in seconds. -/
def queuePollFreq : Nat := 1

/-- The signals sent by the producer thread of `build_job_queue_channel`
during its first `ticks` iterations: each iteration sleeps one second and
then sends the hard-coded string `"integration_test"` into the unbounded
channel.  The thread never inspects the queue directory — the `triggers`
oracle (observed triggers per tick) is ignored, and
`launch_job_queue_poller` is an empty stub. -/
def pollerEmissions (_triggers : Nat → Nat) (ticks : Nat) : List String :=
  (List.range ticks).map (fun _ => "integration_test")

/-- Claim C7 is violated by the code: the emissions are independent of the
observed triggers, and with zero triggers observed at every tick the poller
still sends one `"integration_test"` signal per second — three signals in
three ticks instead of none. -/
theorem poller_ignores_triggers :
    (∀ t₁ t₂ n, pollerEmissions t₁ n = pollerEmissions t₂ n) ∧
    pollerEmissions (fun _ => 0) 3 =
      ["integration_test", "integration_test", "integration_test"] ∧
    (pollerEmissions (fun _ => 0) 3).length = 3 :=
  ⟨fun _ _ _ => rfl, by rfl, by rfl⟩

end Formica
